import Mathlib

/-!
Verification of the Admission Note Builder core: the JSON extraction/repair
routine (`utils`), the retry classifier and backoff calculator (`errors`),
the AI request orchestrator (`api`), and the voice recognition session
manager (`form-populator` / voice module).  Each definition is a shallow
embedding of the corresponding JavaScript/TypeScript function; JavaScript
strings are modelled as Lean `String`, numbers as `Int`/`ℚ`, and the
callback side channel as an explicit event trace.
-/

namespace Admissions

/-! ## JavaScript string primitives

Models of the ECMAScript built-ins the repository code relies on:
`String.prototype.trim`, `includes`, `lastIndexOf`, `substring`,
`endsWith`, and the whitespace classes involved. -/

/-- Characters removed by `String.prototype.trim` (ECMAScript WhiteSpace
and LineTerminator: tab, LF, VT, FF, CR, space, NBSP, BOM, and the Unicode
space separators and line/paragraph separators). -/
def jsWhitespaceChar (c : Char) : Bool :=
  c = ' ' || c = '\t' || c = '\n' || c = '\r' ||
  c.val = 0x0B || c.val = 0x0C || c.val = 0xA0 || c.val = 0xFEFF ||
  c.val = 0x1680 || (0x2000 ≤ c.val && c.val ≤ 0x200A) ||
  c.val = 0x2028 || c.val = 0x2029 || c.val = 0x202F ||
  c.val = 0x205F || c.val = 0x3000

/-- Model of `String.prototype.trim`. -/
def jsTrim (s : String) : String :=
  String.mk (((s.data.dropWhile jsWhitespaceChar).reverse.dropWhile jsWhitespaceChar).reverse)

/-- Model of `String.prototype.includes(pat)`: substring containment. -/
def jsIncludes (s pat : String) : Bool :=
  decide (pat.data <:+: s.data)

/-- Model of `String.prototype.split(sep)` for a non-empty string
separator: split on each non-overlapping occurrence, left to right
(Lean's `String.splitOn` has exactly this behaviour). -/
def jsSplit (s sep : String) : List String :=
  s.splitOn sep

/-- Model of `String.prototype.lastIndexOf(c)` for a single-character
search string: index of the last occurrence, `-1` when absent. -/
def jsLastIndexOf (s : String) (c : Char) : Int :=
  match s.data.reverse.findIdx? (· = c) with
  | some i => (s.data.length : Int) - 1 - (i : Int)
  | none => -1

/-- Model of `String.prototype.substring(a, b)`: both arguments are
clamped into `[0, length]` and swapped if out of order. -/
def jsSubstring (s : String) (a b : Int) : String :=
  let n : Int := s.data.length
  let a' := min (max a 0) n
  let b' := min (max b 0) n
  let lo := (min a' b').toNat
  let hi := (max a' b').toNat
  String.mk ((s.data.drop lo).take (hi - lo))

/-- Model of `String.prototype.endsWith(c)` for a single-character
argument. -/
def jsEndsWith (s : String) (c : Char) : Bool :=
  s.data.getLast? = some c

/-! ## Model of `JSON.parse` as a recognizer

`isValidJson` in `utils` is `try { JSON.parse(str); return true } catch
{ return false }`; the orchestrator's final `JSON.parse` likewise only
matters here through success or failure.  We therefore embed `JSON.parse`
as a recognizer for the ECMA-404 JSON grammar (the exact grammar
`JSON.parse` accepts), written fuel-recursively over the character
list. -/

/-- JSON insignificant whitespace (ECMA-404): space, tab, LF, CR. -/
def jsonWsChar (c : Char) : Bool :=
  c = ' ' || c = '\t' || c = '\n' || c = '\r'

/-- Drop leading JSON whitespace. -/
def skipJsonWs : List Char → List Char
  | [] => []
  | c :: rest => if jsonWsChar c then skipJsonWs rest else c :: rest

/-- The single-character JSON string escapes. -/
def jsonSimpleEscape (c : Char) : Bool :=
  c = '"' || c = '\\' || c = '/' || c = 'b' || c = 'f' ||
  c = 'n' || c = 'r' || c = 't'

/-- Hexadecimal digit. -/
def isHexDigit (c : Char) : Bool :=
  c.isDigit || ('a' ≤ c && c ≤ 'f') || ('A' ≤ c && c ≤ 'F')

/-- Recognize the body of a JSON string literal after the opening quote;
returns the input remaining after the closing quote.  Control characters
below `U+0020` are rejected, as `JSON.parse` rejects them. -/
def jsonStringBody : List Char → Option (List Char)
  | [] => none
  | '"' :: rest => some rest
  | '\\' :: e :: rest =>
    if jsonSimpleEscape e then jsonStringBody rest
    else if e = 'u' then
      match rest with
      | c1 :: c2 :: c3 :: c4 :: rest4 =>
        if isHexDigit c1 && isHexDigit c2 && isHexDigit c3 && isHexDigit c4 then
          jsonStringBody rest4
        else none
      | _ => none
    else none
  | c :: rest => if c.val < 0x20 then none else jsonStringBody rest

/-- Drop leading decimal digits. -/
def skipDigits : List Char → List Char
  | [] => []
  | c :: rest => if c.isDigit then skipDigits rest else c :: rest

/-- Recognize the optional exponent part of a JSON number. -/
def jsonExpPart (l : List Char) : Option (List Char) :=
  match l with
  | e :: r =>
    if e = 'e' || e = 'E' then
      let r2 := match r with
        | '+' :: r2 => r2
        | '-' :: r2 => r2
        | _ => r
      match r2 with
      | c :: r3 => if c.isDigit then some (skipDigits r3) else none
      | [] => none
    else some l
  | [] => some l

/-- Recognize the optional fraction part of a JSON number, then the
exponent. -/
def jsonFracPart (l : List Char) : Option (List Char) :=
  match l with
  | '.' :: r =>
    match r with
    | c :: r2 => if c.isDigit then jsonExpPart (skipDigits r2) else none
    | [] => none
  | _ => jsonExpPart l

/-- Recognize a JSON number (`-? (0 | [1-9][0-9]*) frac? exp?`). -/
def jsonNumber (l : List Char) : Option (List Char) :=
  let l1 := match l with
    | '-' :: r => r
    | _ => l
  match l1 with
  | '0' :: r => jsonFracPart r
  | c :: r => if c.isDigit then jsonFracPart (skipDigits r) else none
  | [] => none

mutual

/-- Recognize a JSON value starting at the head of the input (leading
whitespace already consumed); returns the remaining input.  The fuel
argument only bounds nesting-driven recursion and is chosen large enough
at the top level that it never runs out on a genuine parse. -/
def jsonValue : ℕ → List Char → Option (List Char)
  | 0, _ => none
  | _ + 1, [] => none
  | fuel + 1, c :: rest =>
    if c = '"' then jsonStringBody rest
    else if c = '{' then
      match skipJsonWs rest with
      | '}' :: r => some r
      | l => jsonMembers fuel l
    else if c = '[' then
      match skipJsonWs rest with
      | ']' :: r => some r
      | l => jsonElements fuel l
    else if c = 't' then
      match rest with
      | 'r' :: 'u' :: 'e' :: r => some r
      | _ => none
    else if c = 'f' then
      match rest with
      | 'a' :: 'l' :: 's' :: 'e' :: r => some r
      | _ => none
    else if c = 'n' then
      match rest with
      | 'u' :: 'l' :: 'l' :: r => some r
      | _ => none
    else jsonNumber (c :: rest)

/-- Recognize a non-empty member list of a JSON object, starting at the
first key (leading whitespace consumed), up to and including the closing
brace. -/
def jsonMembers : ℕ → List Char → Option (List Char)
  | 0, _ => none
  | fuel + 1, l =>
    match l with
    | '"' :: r =>
      match jsonStringBody r with
      | none => none
      | some r1 =>
        match skipJsonWs r1 with
        | ':' :: r2 =>
          match jsonValue fuel (skipJsonWs r2) with
          | none => none
          | some r3 =>
            match skipJsonWs r3 with
            | ',' :: r4 => jsonMembers fuel (skipJsonWs r4)
            | '}' :: r4 => some r4
            | _ => none
        | _ => none
    | _ => none

/-- Recognize a non-empty element list of a JSON array, starting at the
first element (leading whitespace consumed), up to and including the
closing bracket. -/
def jsonElements : ℕ → List Char → Option (List Char)
  | 0, _ => none
  | fuel + 1, l =>
    match jsonValue fuel l with
    | none => none
    | some r =>
      match skipJsonWs r with
      | ',' :: r2 => jsonElements fuel (skipJsonWs r2)
      | ']' :: r2 => some r2
      | _ => none

end

/-- Model of `JSON.parse(s)` succeeding: the whole text is one JSON
element (`ws value ws`). -/
def jsonTextValid (s : String) : Bool :=
  match jsonValue (2 * s.data.length + 4) (skipJsonWs s.data) with
  | some r => (skipJsonWs r).isEmpty
  | none => false

/-- `utils.isValidJson`: `JSON.parse` succeeds on the string. -/
def isValidJson (str : String) : Bool :=
  jsonTextValid str

/-! ## `utils.repairTruncatedJson` and `utils.extractJsonFromText`

Shallow embedding of the repair engine in `src/utils.ts`.  The
left-to-right character scan of the source (brace/bracket counts, the
`inString` flag and the `escapeNext` flag) becomes a fold over the
character list. -/

/-- The mutable scan variables of `repairTruncatedJson`. -/
structure ScanState where
  braceCount : Int
  bracketCount : Int
  inString : Bool
  escapeNext : Bool
  deriving Repr, DecidableEq

/-- Initial scan state: all counters zero, both flags false. -/
def ScanState.init : ScanState :=
  ⟨0, 0, false, false⟩

/-- One iteration of the scan loop body in `repairTruncatedJson`. -/
def scanStep (st : ScanState) (c : Char) : ScanState :=
  if st.escapeNext then { st with escapeNext := false }
  else if c = '\\' then { st with escapeNext := true }
  else if c = '"' then { st with inString := !st.inString }
  else if st.inString then st
  else if c = '{' then { st with braceCount := st.braceCount + 1 }
  else if c = '}' then { st with braceCount := st.braceCount - 1 }
  else if c = '[' then { st with bracketCount := st.bracketCount + 1 }
  else if c = ']' then { st with bracketCount := st.bracketCount - 1 }
  else st

/-- The whole scan loop of `repairTruncatedJson` over a string. -/
def scanJson (s : String) : ScanState :=
  s.data.foldl scanStep ScanState.init

/-- `utils.repairTruncatedJson`: close an unterminated string literal
(replacing a just-opened value by `null`, or truncating after the last
quote), then append `]` once per net-open bracket and `}` once per
net-open brace. -/
def repairTruncatedJson (jsonStr : String) : String :=
  let st := scanJson jsonStr
  let result :=
    if st.inString then
      let lastQuote := jsLastIndexOf jsonStr '"'
      if lastQuote > 0 then
        let beforeQuote := jsTrim (jsSubstring jsonStr 0 lastQuote)
        if jsEndsWith beforeQuote ':' || jsEndsWith beforeQuote ',' ||
            jsEndsWith beforeQuote '[' then
          jsSubstring jsonStr 0 lastQuote ++ "null"
        else
          jsSubstring jsonStr 0 (lastQuote + 1)
      else jsonStr
    else jsonStr
  let st2 := scanJson result
  result ++ String.mk (List.replicate st2.bracketCount.toNat ']') ++
    String.mk (List.replicate st2.braceCount.toNat '}')

/-- The fence marker `` ```json `` as a string (backtick written by code
point to keep the source plain). -/
def fenceJsonMarker : String :=
  String.mk [Char.ofNat 0x60, Char.ofNat 0x60, Char.ofNat 0x60, 'j', 's', 'o', 'n']

/-- The plain fence marker `` ``` ``. -/
def fenceMarker : String :=
  String.mk [Char.ofNat 0x60, Char.ofNat 0x60, Char.ofNat 0x60]

/-- `utils.extractJsonFromText` (TypeScript variant, `src/utils.ts`):
strip a markdown fence if present, trim, and run the repair pass only
when the stripped text does not already parse as JSON. -/
def extractJsonFromText (text : String) : String :=
  let jsonStr :=
    if jsIncludes text fenceJsonMarker then
      match (jsSplit text fenceJsonMarker).get? 1 with
      | some t => ((jsSplit t fenceMarker).get? 0).getD text
      | none => text
    else if jsIncludes text fenceMarker then
      match (jsSplit text fenceMarker).get? 1 with
      | some t => ((jsSplit t fenceMarker).get? 0).getD text
      | none => text
    else text
  let jsonStr := jsTrim jsonStr
  if !isValidJson jsonStr then repairTruncatedJson jsonStr else jsonStr

/-! ## Error taxonomy, retry classifier and backoff calculator

`src/errors.ts`.  The error classes become an inductive type; the
`instanceof` dispatch becomes a `match`. -/

/-- The application's error values: `NetworkError`, `ApiError` (with its
HTTP status code), `ValidationError` (with its optional field name), and
a plain `Error`. -/
inductive JsError where
  | networkError (message : String)
  | apiError (message : String) (statusCode : Int)
  | validationError (message : String) (field : Option String)
  | genericError (message : String)
  deriving Repr, DecidableEq

/-- The human-readable message carried by an error. -/
def JsError.message : JsError → String
  | .networkError m => m
  | .apiError m _ => m
  | .validationError m _ => m
  | .genericError m => m

/-- `errors.isRetryableError`: `NetworkError` is always retryable; an
`ApiError` is retryable exactly for status codes 429, 500, 502, 503;
everything else is not. -/
def isRetryableError (error : JsError) : Bool :=
  match error with
  | .networkError _ => true
  | .apiError _ statusCode => ([429, 500, 502, 503] : List Int).contains statusCode
  | _ => false

/-- The status-code table `ERROR_MESSAGES` of `src/errors.ts` (the keys
used by `getErrorMessage`). -/
def errorMessageFor (statusCode : Int) : Option String :=
  if statusCode = 400 then some "Invalid request. Please check your input and try again."
  else if statusCode = 401 then some "Invalid API key. Please check your Gemini API key."
  else if statusCode = 403 then some "Access denied. Your API key may not have the required permissions."
  else if statusCode = 404 then some "API endpoint not found. The service may be temporarily unavailable."
  else if statusCode = 429 then some "Rate limit exceeded. Please wait a moment before trying again."
  else if statusCode = 500 then some "Server error. The AI service is experiencing issues."
  else if statusCode = 502 then some "Bad gateway. The AI service is temporarily unavailable."
  else if statusCode = 503 then some "Service unavailable. Please try again later."
  else none

/-- The `UNKNOWN` fallback message. -/
def unknownErrorMessage : String :=
  "An unexpected error occurred. Please try again."

/-- `errors.getErrorMessage` (TypeScript variant); `online` models
`navigator.onLine` at the moment of the call. -/
def getErrorMessage (error : JsError) (online : Bool) : String :=
  match error with
  | .apiError _ statusCode => (errorMessageFor statusCode).getD unknownErrorMessage
  | .networkError _ =>
    if !online then "You appear to be offline. Please check your connection."
    else "Network error. Please check your internet connection."
  | .validationError m _ => if m = "" then unknownErrorMessage else m
  | .genericError m => if m = "" then unknownErrorMessage else m

/-- The retry configuration shape (`CONFIG.RETRY` without
`MAX_ATTEMPTS`, which the delay formula does not read). -/
structure RetryDelayConfig where
  INITIAL_DELAY_MS : ℚ
  MAX_DELAY_MS : ℚ
  BACKOFF_MULTIPLIER : ℚ
  deriving Repr, DecidableEq

/-- The repository's `CONFIG.RETRY` delay constants. -/
def configRetry : RetryDelayConfig :=
  ⟨1000, 10000, 2⟩

/-- The repository's `CONFIG.RETRY.MAX_ATTEMPTS`. -/
def configMaxAttempts : ℕ := 3

/-- `errors.calculateRetryDelay`; `rand` models the `Math.random()` draw
(a value in `[0, 1)`), numbers are modelled as rationals. -/
def calculateRetryDelay (attempt : ℕ) (config : RetryDelayConfig) (rand : ℚ) : ℚ :=
  let delay := min (config.INITIAL_DELAY_MS * config.BACKOFF_MULTIPLIER ^ attempt)
    config.MAX_DELAY_MS
  delay + rand * 1000

/-- `Math.round` on a rational: floor of `x + 1/2`. -/
def jsRound (x : ℚ) : Int :=
  ⌊x + 1 / 2⌋

/-! ## AI orchestrator (`src/api.ts` `parseWithAI`)

The response envelope, the transport, and the retry loop.  The external
transport (`fetch` plus `response.json()`) is a parameter: a function
from the attempt index to that attempt's outcome.  The callback side
channel (`onStatus` / `onSuccess` / `onError`) and the suspensions
(`sleep`) are recorded as an explicit event trace. -/

/-- One output Part of a Gemini candidate (`{text?: string}`). -/
structure RespPart where
  text : Option String
  deriving Repr, DecidableEq

/-- `candidate.content` (`{parts?: RespPart[]}`). -/
structure CandContent where
  parts : Option (List RespPart)
  deriving Repr, DecidableEq

/-- One Gemini candidate. -/
structure Candidate where
  content : Option CandContent
  finishReason : Option String
  deriving Repr, DecidableEq

/-- The Gemini success-response envelope. -/
structure GeminiResponse where
  candidates : Option (List Candidate)
  deriving Repr, DecidableEq

/-- One attempt's transport outcome: a non-ok HTTP response with its
status code and (when the error body parsed) the service's own error
message, or a successfully decoded response envelope. -/
inductive FetchOutcome where
  | httpError (status : Int) (errorMessage : Option String)
  | success (resp : GeminiResponse)
  deriving Repr, DecidableEq

/-- The parsed clinical data handed back to the caller.  The orchestrator
never inspects the decoded document (it hands it to out-of-scope form
glue), so the model keeps the JSON text that parsed; `JSON.parse` success
is `jsonTextValid`. -/
structure ClinicalData where
  raw : String
  deriving Repr, DecidableEq

/-- Model of `JSON.parse` as used on the extracted payload: succeeds
exactly on valid JSON text. -/
def jsonParseClinical (s : String) : Option ClinicalData :=
  if jsonTextValid s then some ⟨s⟩ else none

/-- Strategy 1 predicate: the part has (truthy) text whose trimmed form
starts with a brace or with the ```` ```json ```` fence marker. -/
def isJsonLikePart (p : RespPart) : Bool :=
  match p.text with
  | some t => t ≠ "" && ((jsTrim t).startsWith "\x7b" || (jsTrim t).startsWith fenceJsonMarker)
  | none => false

/-- Strategy 2 predicate: the part has (truthy) text containing both an
opening and a closing brace. -/
def hasBracePair (p : RespPart) : Bool :=
  match p.text with
  | some t => t ≠ "" && t.contains '{' && t.contains '}'
  | none => false

/-- Strategy 3 predicate: the part's text trims to something non-empty. -/
def hasNonEmptyTrimmedText (p : RespPart) : Bool :=
  match p.text with
  | some t => jsTrim t ≠ ""
  | none => false

/-- The `for ... break` scan of a part list: text of the first part
satisfying the predicate. -/
def findFirstPartText (pred : RespPart → Bool) : List RespPart → Option String
  | [] => none
  | p :: rest => if pred p then p.text else findFirstPartText pred rest

/-- The downward `for` scan (strategy 3): text of the last part
satisfying the predicate. -/
def findLastPartText (pred : RespPart → Bool) (parts : List RespPart) : Option String :=
  findFirstPartText pred parts.reverse

/-- The three ordered payload-selection strategies of `parseWithAI`. -/
def chooseText (parts : List RespPart) : Option String :=
  match findFirstPartText isJsonLikePart parts with
  | some t => some t
  | none =>
    match findFirstPartText hasBracePair parts with
    | some t => some t
    | none => findLastPartText hasNonEmptyTrimmedText parts

/-- Payload-text selection from a whole response:
`data?.candidates?.[0]?.content?.parts` scanned by the three
strategies. -/
def responseText (data : GeminiResponse) : Option String :=
  match data.candidates with
  | none => none
  | some cs =>
    match cs.get? 0 with
    | none => none
    | some candidate =>
      match candidate.content with
      | none => none
      | some content =>
        match content.parts with
        | none => none
        | some parts => chooseText parts

/-- The `Empty response` error message thrown when no part yields text
(TypeScript variant). -/
def emptyResponseMessage : String :=
  "Empty response from AI. The model returned no text content. Try using Gemini 2.0 Flash."

/-- Marker message standing for the engine-generated `SyntaxError` text
of a failed final `JSON.parse` (its exact wording is
implementation-defined and never inspected by the code). -/
def jsonSyntaxErrorMessage : String :=
  "SyntaxError: JSON.parse"

/-- The `ApiError` message of the TypeScript orchestrator:
`errorDetails?.error?.message || 'API request failed: ...'`. -/
def apiFailMessageTs (status : Int) (errorMessage : Option String) : String :=
  match errorMessage with
  | some m => if m = "" then "API request failed: " ++ toString status else m
  | none => "API request failed: " ++ toString status

/-- One attempt of the TypeScript `parseWithAI` body after the status
notification: offline check, transport submission, payload selection,
extraction and final parse. -/
def runAttemptTs (online : Bool) (outcome : FetchOutcome) : Except JsError ClinicalData :=
  if !online then .error (.networkError "You appear to be offline.")
  else
    match outcome with
    | .httpError status errorMessage =>
      .error (.apiError (apiFailMessageTs status errorMessage) status)
    | .success data =>
      match responseText data with
      | none => .error (.genericError emptyResponseMessage)
      | some text =>
        match jsonParseClinical (extractJsonFromText text) with
        | none => .error (.genericError jsonSyntaxErrorMessage)
        | some parsed => .ok parsed

/-- The observable side channel of one orchestrator call: status
notifications, transport submissions (`fetch`), timed suspensions
(`sleep`), and the terminal success/error callbacks. -/
inductive REvent where
  | statusEv (message : String) (kind : String)
  | fetchEv
  | sleepEv (ms : ℚ)
  | successEv (data : ClinicalData)
  | errorEv (error : JsError)
  deriving Repr, DecidableEq

/-- The attempt-start status message of the TypeScript `parseWithAI`. -/
def tsAttemptStatus (hasImage : Bool) (attempt maxAttempts : ℕ) : String :=
  if attempt = 0 then
    if hasImage then "Parsing image and notes with AI... This may take a few seconds."
    else "Parsing with AI... This may take a few seconds."
  else s!"Retrying... (attempt {attempt + 1}/{maxAttempts})"

/-- The final error notifications after the retry loop exits without a
result (`onStatus(getErrorMessage(lastError), 'error')` then
`onError(lastError)`); `lastErr = none` is unreachable whenever at least
one attempt ran. -/
def tsEpilogue (online : Bool) (lastErr : Option JsError) : List REvent :=
  match lastErr with
  | some e => [.statusEv (getErrorMessage e online) "error", .errorEv e]
  | none => []

/-- The retry loop of the TypeScript `parseWithAI`: `attempt` is the
0-based loop counter, `fuel` the remaining iterations
(`maxAttempts - attempt`). -/
def tsRetryLoop (hasImage : Bool) (maxAttempts : ℕ) (cfg : RetryDelayConfig)
    (online : ℕ → Bool) (transport : ℕ → FetchOutcome) (rand : ℕ → ℚ) :
    ℕ → ℕ → Option JsError → Option ClinicalData × List REvent
  | attempt, 0, lastErr => (none, tsEpilogue (online attempt) lastErr)
  | attempt, fuel + 1, _ =>
    let pre := [REvent.statusEv (tsAttemptStatus hasImage attempt maxAttempts) "loading"] ++
      (if online attempt then [REvent.fetchEv] else [])
    match runAttemptTs (online attempt) (transport attempt) with
    | .ok parsed =>
      (some parsed, pre ++
        [.statusEv "Successfully parsed and populated form fields!" "success",
          .successEv parsed])
    | .error e =>
      if isRetryableError e && decide (attempt < maxAttempts - 1) then
        let delay := calculateRetryDelay attempt cfg (rand attempt)
        let rest := tsRetryLoop hasImage maxAttempts cfg online transport rand
          (attempt + 1) fuel (some e)
        (rest.1, pre ++
          [.statusEv s!"Rate limited. Retrying in {jsRound (delay / 1000)} seconds..." "loading",
            .sleepEv delay] ++ rest.2)
      else
        (none, pre ++ tsEpilogue (online attempt) (some e))

/-- JavaScript truthiness of an optional string (`null`/`undefined` and
the empty string are falsy). -/
def truthyOptStr (s : Option String) : Bool :=
  match s with
  | some t => t ≠ ""
  | none => false

/-- The TypeScript `parseWithAI` of `src/api.ts`: precondition checks,
then the retry loop; returns the parsed data (or `null`) together with
the emitted event trace. -/
def parseWithAI (apiKey : Option String) (inputText : String) (hasImage : Bool)
    (online : ℕ → Bool) (transport : ℕ → FetchOutcome) (rand : ℕ → ℚ) :
    Option ClinicalData × List REvent :=
  let hasText := jsTrim inputText ≠ ""
  if !truthyOptStr apiKey then
    (none, [.statusEv "Please enter your Gemini API key first." "error"])
  else if !hasText && !hasImage then
    (none, [.statusEv "Please enter some notes or upload an image to parse." "error"])
  else
    tsRetryLoop hasImage configMaxAttempts configRetry online transport rand 0
      configMaxAttempts none

/-! ## JavaScript orchestrator variant (`js/api.js`)

The parallel plain-JS implementation: explicit input validation raising
`ValidationError`, a fence-strip-only `extractJsonFromText` (the JS
`utils` has no repair pass), and first-part-only payload extraction. -/

/-- The JS `utils.extractJsonFromText`: fence stripping and trim only
(no repair).  Under each `includes` guard the indexed split element
exists, so the `getD` defaults are unreachable. -/
def extractJsonFromTextJs (text : String) : String :=
  let jsonStr :=
    if jsIncludes text fenceJsonMarker then
      (jsSplit ((jsSplit text fenceJsonMarker).getD 1 "") fenceMarker).getD 0 ""
    else if jsIncludes text fenceMarker then
      (jsSplit ((jsSplit text fenceMarker).getD 1 "") fenceMarker).getD 0 ""
    else text
  jsTrim jsonStr

/-- `api.js` `validateInputs`: a `ValidationError` for a missing key or
blank input text, `none` when the inputs pass. -/
def jsValidateInputs (apiKey : Option String) (inputText : String) : Option JsError :=
  if !truthyOptStr apiKey then
    some (.validationError "Please enter your Gemini API key first." (some "apiKey"))
  else if inputText = "" || jsTrim inputText = "" then
    some (.validationError "Please enter some notes to parse." (some "inputText"))
  else none

/-- `errors.js` `getErrorMessage` (the JS variant keeps a descriptive
`ApiError`/`NetworkError` message in preference to the generic table). -/
def jsGetErrorMessage (error : JsError) (online : Bool) : String :=
  match error with
  | .apiError m status =>
    match errorMessageFor status with
    | some statusMessage => statusMessage
    | none =>
      if m ≠ "" && !(jsIncludes m "API request failed") then m else unknownErrorMessage
  | .networkError m =>
    if m ≠ "" && m ≠ "Network error" then m
    else if !online then "You appear to be offline. Please check your connection."
    else "Network error. Please check your internet connection."
  | .validationError m _ => if m = "" then unknownErrorMessage else m
  | .genericError m => if m = "" then unknownErrorMessage else m

/-- The `ApiError` message of the JS orchestrator. -/
def apiFailMessageJs (status : Int) (errorMessage : Option String) : String :=
  match errorMessage with
  | some m =>
    if m = "" then "API request failed with status " ++ toString status else m
  | none => "API request failed with status " ++ toString status

/-- `api.js` `makeApiRequest`: connectivity probe, then the transport;
a non-ok response becomes an `ApiError`. -/
def jsMakeApiRequest (online : Bool) (outcome : FetchOutcome) :
    Except JsError GeminiResponse :=
  if !online then
    .error (.networkError "Connection lost. Please check your internet connection.")
  else
    match outcome with
    | .httpError status errorMessage =>
      .error (.apiError (apiFailMessageJs status errorMessage) status)
    | .success data => .ok data

/-- `api.js` `parseApiResponse`: first part of the first candidate only,
then fence-strip and `JSON.parse`. -/
def jsParseApiResponse (response : GeminiResponse) : Except JsError ClinicalData :=
  let text : Option String :=
    match response.candidates with
    | none => none
    | some cs =>
      match cs.get? 0 with
      | none => none
      | some candidate =>
        match candidate.content with
        | none => none
        | some content =>
          match content.parts with
          | none => none
          | some parts =>
            match parts.get? 0 with
            | none => none
            | some p => p.text
  match text with
  | none => .error (.genericError "Empty response from AI. Please try again.")
  | some t =>
    if t = "" then .error (.genericError "Empty response from AI. Please try again.")
    else
      match jsonParseClinical (extractJsonFromTextJs t) with
      | none => .error (.genericError "Failed to parse AI response. The response was not valid JSON.")
      | some parsed => .ok parsed

/-- One attempt body of the JS `parseWithAI` after the attempt-start
status: request, mid-parse statuses, success callbacks; returns the
outcome together with the events the attempt emitted. -/
def runAttemptJs (online : Bool) (outcome : FetchOutcome) :
    Except JsError ClinicalData × List REvent :=
  let fetchEvs := if online then [REvent.fetchEv] else []
  match jsMakeApiRequest online outcome with
  | .error e => (.error e, fetchEvs)
  | .ok data =>
    let evs := fetchEvs ++ [REvent.statusEv "Parsing response..." "loading"]
    match jsParseApiResponse data with
    | .error e => (.error e, evs)
    | .ok parsed =>
      (.ok parsed, evs ++
        [.statusEv "Populating form..." "loading", .successEv parsed,
          .statusEv "Done!" "success"])

/-- The attempt-start status message of the JS `parseWithAI`. -/
def jsAttemptStatus (attempt maxAttempts : ℕ) : String :=
  if attempt = 0 then "Sending to AI..."
  else s!"Retrying... (attempt {attempt + 1}/{maxAttempts})"

/-- The final error notifications of the JS `parseWithAI`. -/
def jsEpilogue (online : Bool) (lastErr : Option JsError) : List REvent :=
  match lastErr with
  | some e => [.statusEv (jsGetErrorMessage e online) "error", .errorEv e]
  | none => []

/-- The retry loop of the JS `parseWithAI`. -/
def jsRetryLoop (maxAttempts : ℕ) (cfg : RetryDelayConfig)
    (online : ℕ → Bool) (transport : ℕ → FetchOutcome) (rand : ℕ → ℚ) :
    ℕ → ℕ → Option JsError → Option ClinicalData × List REvent
  | attempt, 0, lastErr => (none, jsEpilogue (online attempt) lastErr)
  | attempt, fuel + 1, _ =>
    let pre := [REvent.statusEv (jsAttemptStatus attempt maxAttempts) "loading"]
    match runAttemptJs (online attempt) (transport attempt) with
    | (.ok parsed, evs) => (some parsed, pre ++ evs)
    | (.error e, evs) =>
      if isRetryableError e && decide (attempt < maxAttempts - 1) then
        let delay := calculateRetryDelay attempt cfg (rand attempt)
        let errorType := match e with
          | .networkError _ => "Connection issue"
          | _ => "Rate limited"
        let rest := jsRetryLoop maxAttempts cfg online transport rand
          (attempt + 1) fuel (some e)
        (rest.1, pre ++ evs ++
          [.statusEv s!"{errorType}. Retrying in {jsRound (delay / 1000)} seconds..." "loading",
            .sleepEv delay] ++ rest.2)
      else
        (none, pre ++ evs ++ jsEpilogue (online attempt) (some e))

/-- The JS `parseWithAI` of `js/api.js`: validation (reporting a
`ValidationError` through both callbacks), then the retry loop. -/
def jsParseWithAI (apiKey : Option String) (inputText : String)
    (online : ℕ → Bool) (transport : ℕ → FetchOutcome) (rand : ℕ → ℚ) :
    Option ClinicalData × List REvent :=
  match jsValidateInputs apiKey inputText with
  | some e => (none, [.statusEv e.message "error", .errorEv e])
  | none => jsRetryLoop configMaxAttempts configRetry online transport rand 0
      configMaxAttempts none

/-! ## Voice recognition session manager

Both variants (`src/form-populator.ts` class and the JS voice module)
share the state `{recognition, isRecording}`; the observable actions —
state writes, transport `start()`/`stop()` requests, and the
`onStart`/`onEnd`/`onError` callbacks — are recorded as an event
trace. -/

/-- The manager's state: whether a transport handle exists
(`recognition !== null`) and the `isRecording` flag. -/
structure VoiceState where
  hasRecognition : Bool
  isRecording : Bool
  deriving Repr, DecidableEq

/-- Observable actions of the voice manager. -/
inductive VEvent where
  | setRecordingEv (b : Bool)
  | transportStartEv
  | transportStopEv
  | onStartEv
  | onEndEv
  | onErrorEv (message : String)
  deriving Repr, DecidableEq

/-- `VoiceRecognitionManager.stop` (TypeScript variant): clear
`isRecording` first, ask the transport to halt when one exists (halt
exceptions swallowed), then fire `onEnd`. -/
def tsStop (st : VoiceState) : VoiceState × List VEvent :=
  ({ st with isRecording := false },
    [.setRecordingEv false] ++
      (if st.hasRecognition then [.transportStopEv] else []) ++ [.onEndEv])

/-- The `onend` handler installed by the TypeScript `init`: restart the
transport while `isRecording` is still set (restart exceptions
swallowed); otherwise do nothing. -/
def tsOnEndHandler (st : VoiceState) : VoiceState × List VEvent :=
  if st.isRecording then
    (st, if st.hasRecognition then [.transportStartEv] else [])
  else (st, [])

/-- `VoiceRecognitionManager.stop` (JS variant): clear `isRecording` and
ask the transport to halt; fires no callback itself. -/
def jsStop (st : VoiceState) : VoiceState × List VEvent :=
  ({ st with isRecording := false },
    [.setRecordingEv false] ++
      (if st.hasRecognition then [.transportStopEv] else []))

/-- The `onend` handler installed by the JS `_setupEventListeners`:
restart while `isRecording` is still set, otherwise fire `onEnd`. -/
def jsOnEndHandler (st : VoiceState) : VoiceState × List VEvent :=
  if st.isRecording then (st, [.transportStartEv]) else (st, [.onEndEv])

/-! ## Event classifiers used by the statements -/

/-- Transport submissions, suspensions and terminal callbacks (the
events the retry-budget property constrains), excluding status text. -/
def isCoreEvent : REvent → Bool
  | .fetchEv => true
  | .sleepEv _ => true
  | .successEv _ => true
  | .errorEv _ => true
  | .statusEv _ _ => false

/-- `onError` callback events. -/
def isErrorEvent : REvent → Bool
  | .errorEv _ => true
  | _ => false

/-- `onSuccess` callback events. -/
def isSuccessEvent : REvent → Bool
  | .successEv _ => true
  | _ => false

/-- Transport submissions. -/
def isFetchEvent : REvent → Bool
  | .fetchEv => true
  | _ => false

/-! # Theorems -/

/-- A string with no plain ``` ``` ``` marker contains no ```` ```json ````
marker either. -/
theorem jsIncludes_fenceJson_of_not_fence (s : String)
    (h : jsIncludes s fenceMarker = false) :
    jsIncludes s fenceJsonMarker = false := by
  simp only [jsIncludes, decide_eq_false_iff_not] at h ⊢
  intro hinf
  exact h (List.IsInfix.trans (by decide) hinf)

/-- `substring(0, b)` is empty for non-positive `b`. -/
theorem jsSubstring_nonpos (s : String) (b : Int) (hb : b ≤ 0) :
    jsSubstring s 0 b = "" := by
  have h0 : (0 : Int) ≤ (s.data.length : Int) := Int.ofNat_nonneg _
  unfold jsSubstring
  simp [max_eq_right hb, min_eq_left h0]

/-- C1 (counterexample): the string `" \x7b\x7d"` parses as JSON
(`JSON.parse` skips surrounding whitespace) but `extractJsonFromText`
returns it trimmed, so a character of the input is dropped and the
result differs from the input. -/
theorem c1_counterexample :
    isValidJson " \x7b\x7d" = true ∧ extractJsonFromText " \x7b\x7d" ≠ " \x7b\x7d" := by
  decide

/-- C1 (amended): for every JSON-parseable string `s` that contains no
triple-backtick marker and equals its own trim, `extractJsonFromText s`
returns `s` unchanged — the repair pass is skipped and no character is
mutated.  (A parseable input with surrounding whitespace comes back
trimmed, and one containing a fence marker comes back stripped, so the
two extra hypotheses are necessary.) -/
theorem c1_extract_identity_on_valid (s : String)
    (hfence : jsIncludes s fenceMarker = false)
    (htrim : jsTrim s = s) (hvalid : isValidJson s = true) :
    extractJsonFromText s = s := by
  have hjson := jsIncludes_fenceJson_of_not_fence s hfence
  simp [extractJsonFromText, hjson, hfence, htrim, hvalid]

/-- C1 witness: the amended identity at the concrete valid document
`"\x7b\x7d"`. -/
theorem c1_extract_identity_witness : extractJsonFromText "\x7b\x7d" = "\x7b\x7d" :=
  c1_extract_identity_on_valid "\x7b\x7d" (by decide) (by decide) (by decide)

/-- C2: whenever the repair scan of the input ends inside a string
literal and the trimmed text before the last quote character ends with
`:`, `,` or `[`, `repairTruncatedJson` replaces the text from that quote
to end-of-string with the literal `null` and appends `]` once per
remaining net-open bracket and `}` once per remaining net-open brace (as
recounted on the replaced text); in particular the truncated input
`'\x7b"a": "hello'` repairs to exactly `'\x7b"a": null\x7d'`. -/
theorem c2_repair_truncated_string_value (s : String)
    (hin : (scanJson s).inString = true)
    (hend : (jsEndsWith (jsTrim (jsSubstring s 0 (jsLastIndexOf s '"'))) ':' ||
        jsEndsWith (jsTrim (jsSubstring s 0 (jsLastIndexOf s '"'))) ',' ||
        jsEndsWith (jsTrim (jsSubstring s 0 (jsLastIndexOf s '"'))) '[') = true) :
    (repairTruncatedJson s =
      jsSubstring s 0 (jsLastIndexOf s '"') ++ "null" ++
        String.mk (List.replicate
          (scanJson (jsSubstring s 0 (jsLastIndexOf s '"') ++ "null")).bracketCount.toNat ']') ++
        String.mk (List.replicate
          (scanJson (jsSubstring s 0 (jsLastIndexOf s '"') ++ "null")).braceCount.toNat '}')) ∧
    repairTruncatedJson "\x7b\"a\": \"hello" = "\x7b\"a\": null\x7d" := by
  constructor
  · have hq : 0 < jsLastIndexOf s '"' := by
      by_contra hq
      push_neg at hq
      rw [jsSubstring_nonpos s _ hq] at hend
      revert hend
      decide
    unfold repairTruncatedJson
    simp [hin, hq, hend]
  · decide

/-- C2 witness: the repair branch applied to a second concrete truncated
document, an unterminated string opened after a comma inside an array. -/
theorem c2_repair_truncated_witness :
    repairTruncatedJson "\x7b\"k\": [\"v\", \"w" = "\x7b\"k\": [\"v\", null]\x7d" := by
  have h := (c2_repair_truncated_string_value "\x7b\"k\": [\"v\", \"w"
    (by decide) (by decide)).1
  rw [h]
  decide

/-- The first-match part scan agrees with `List.find?` followed by the
text projection. -/
theorem findFirstPartText_eq (pred : RespPart → Bool) (l : List RespPart) :
    findFirstPartText pred l = (l.find? pred).bind RespPart.text := by
  induction l with
  | nil => rfl
  | cons p rest ih =>
    by_cases h : pred p
    · simp [findFirstPartText, List.find?_cons_of_pos, h]
    · simp [findFirstPartText, List.find?_cons_of_neg, h, ih]

/-- C6: on a transport success whose first Candidate carries a part
list, the payload text is chosen by the three ordered strategies, first
match wins: (i) the first part whose trimmed text starts with a brace or
the ```` ```json ```` fence; (ii) otherwise the first part whose text
contains both braces; (iii) otherwise the last part with non-empty
trimmed text.  If no part yields text, the attempt fails with the
`Empty response` (malformed response) error. -/
theorem c6_payload_selection (parts : List RespPart) (rest : List Candidate)
    (finishReason : Option String) :
    (responseText ⟨some (⟨some ⟨some parts⟩, finishReason⟩ :: rest)⟩ =
      (((parts.find? isJsonLikePart).bind RespPart.text).or
        (((parts.find? hasBracePair).bind RespPart.text).or
          ((parts.reverse.find? hasNonEmptyTrimmedText).bind RespPart.text)))) ∧
    (responseText ⟨some (⟨some ⟨some parts⟩, finishReason⟩ :: rest)⟩ = none →
      runAttemptTs true (.success ⟨some (⟨some ⟨some parts⟩, finishReason⟩ :: rest)⟩) =
        .error (.genericError emptyResponseMessage)) := by
  have hresp : responseText ⟨some (⟨some ⟨some parts⟩, finishReason⟩ :: rest)⟩ =
      chooseText parts := rfl
  constructor
  · rw [hresp]
    unfold chooseText findLastPartText
    rw [findFirstPartText_eq, findFirstPartText_eq, findFirstPartText_eq]
    cases (parts.find? isJsonLikePart).bind RespPart.text with
    | some t => simp [Option.or]
    | none =>
      cases (parts.find? hasBracePair).bind RespPart.text with
      | some t => simp [Option.or]
      | none => simp [Option.or]
  · intro h
    simp [runAttemptTs, h]

/-- C6 witness: a success response whose only candidate has an empty
part list yields no payload text and the attempt fails with the
malformed-response error. -/
theorem c6_payload_selection_witness :
    runAttemptTs true (.success ⟨some (⟨some ⟨some []⟩, some "STOP"⟩ :: [])⟩) =
      .error (.genericError emptyResponseMessage) :=
  (c6_payload_selection [] [] (some "STOP")).2 (by decide)

/-- C7: when no credential is configured, or the input text is blank and
no image is supplied, both orchestrator variants fail immediately: the
result is `null`, the entire event trace is one terminal error report —
the TypeScript variant an error-kind status, the JS variant the
`ValidationError` through both the status and `onError` callbacks — so
no transport submission and no retry sleep occurs. -/
theorem c7_validation_no_network (apiKey : Option String) (inputText : String)
    (hasImage : Bool) (online : ℕ → Bool) (transport : ℕ → FetchOutcome) (rand : ℕ → ℚ)
    (h : truthyOptStr apiKey = false ∨ (jsTrim inputText = "" ∧ hasImage = false)) :
    ((parseWithAI apiKey inputText hasImage online transport rand).1 = none ∧
      (∃ m, (parseWithAI apiKey inputText hasImage online transport rand).2 =
        [.statusEv m "error"])) ∧
    ((jsParseWithAI apiKey inputText online transport rand).1 = none ∧
      (∃ m f, (jsParseWithAI apiKey inputText online transport rand).2 =
        [.statusEv m "error", .errorEv (.validationError m f)])) := by
  rcases h with hkey | ⟨htext, himg⟩
  · refine ⟨⟨?_, ?_⟩, ?_, ?_⟩ <;>
      simp [parseWithAI, jsParseWithAI, jsValidateInputs, hkey, JsError.message]
  · subst himg
    cases hkey : truthyOptStr apiKey with
    | false =>
      refine ⟨⟨?_, ?_⟩, ?_, ?_⟩ <;>
        simp [parseWithAI, jsParseWithAI, jsValidateInputs, hkey, JsError.message]
    | true =>
      refine ⟨⟨?_, ?_⟩, ?_, ?_⟩ <;>
        simp [parseWithAI, jsParseWithAI, jsValidateInputs, hkey, htext, JsError.message]

/-- C5: against a transport that fails every submission with HTTP 500
(a retryable status), a call with a valid credential and non-empty input
performs exactly `maxAttempts = 3` transport submissions with a backoff
sleep between consecutive submissions, then surfaces the `ApiError`
(ServiceFailure) with status 500 through the error callback and returns
`null`; no further attempt follows the error report. -/
theorem c5_retry_budget (apiKey inputText : String) (hasImage : Bool)
    (errMsg : Option String) (rand : ℕ → ℚ)
    (hkey : apiKey ≠ "") (htext : jsTrim inputText ≠ "") :
    (parseWithAI (some apiKey) inputText hasImage (fun _ => true)
        (fun _ => .httpError 500 errMsg) rand).1 = none ∧
    (parseWithAI (some apiKey) inputText hasImage (fun _ => true)
        (fun _ => .httpError 500 errMsg) rand).2.count REvent.fetchEv = 3 ∧
    ((parseWithAI (some apiKey) inputText hasImage (fun _ => true)
        (fun _ => .httpError 500 errMsg) rand).2.filter isCoreEvent =
      [REvent.fetchEv,
        .sleepEv (calculateRetryDelay 0 configRetry (rand 0)),
        .fetchEv,
        .sleepEv (calculateRetryDelay 1 configRetry (rand 1)),
        .fetchEv,
        .errorEv (.apiError (apiFailMessageTs 500 errMsg) 500)]) := by
  have hrun : runAttemptTs true (FetchOutcome.httpError 500 errMsg) =
      .error (.apiError (apiFailMessageTs 500 errMsg) 500) := rfl
  have hretry : isRetryableError (.apiError (apiFailMessageTs 500 errMsg) 500) = true := rfl
  refine ⟨?_, ?_, ?_⟩ <;>
    simp [parseWithAI, truthyOptStr, hkey, htext, configMaxAttempts,
      tsRetryLoop, hrun, hretry, tsEpilogue, isCoreEvent]

/-- C5 witness: the retry budget at concrete inputs with zero jitter
draws — three submissions, sleeps of 1000 ms and 2000 ms, and the
surfaced 500 ServiceFailure. -/
theorem c5_retry_budget_witness :
    (parseWithAI (some "k") "x" false (fun _ => true)
        (fun _ => .httpError 500 none) (fun _ => 0)).1 = none ∧
    (parseWithAI (some "k") "x" false (fun _ => true)
        (fun _ => .httpError 500 none) (fun _ => 0)).2.count REvent.fetchEv = 3 ∧
    ((parseWithAI (some "k") "x" false (fun _ => true)
        (fun _ => .httpError 500 none) (fun _ => 0)).2.filter isCoreEvent =
      [REvent.fetchEv, .sleepEv 1000, .fetchEv, .sleepEv 2000, .fetchEv,
        .errorEv (.apiError "API request failed: 500" 500)]) := by
  have h := c5_retry_budget "k" "x" false none (fun _ => 0) (by decide) (by decide)
  refine ⟨h.1, h.2.1, ?_⟩
  rw [h.2.2]
  norm_num [calculateRetryDelay, configRetry, apiFailMessageTs, min_def]
  decide

/-- C7 witness: with no credential, both variants return `null` after a
single error report and without touching the transport. -/
theorem c7_validation_witness :
    (parseWithAI none "note" false (fun _ => true)
        (fun _ => .httpError 500 none) (fun _ => 0)).1 = none ∧
    (jsParseWithAI none "note" (fun _ => true)
        (fun _ => .httpError 500 none) (fun _ => 0)).1 = none := by
  have h := c7_validation_no_network none "note" false (fun _ => true)
    (fun _ => .httpError 500 none) (fun _ => 0) (Or.inl rfl)
  exact ⟨h.1.1, h.2.1⟩

/-- C3: the retryability classification returns Retryable exactly for a
connectivity/transport failure (`NetworkError`) or a server response
failure (`ApiError`) whose status code is one of 429, 500, 502, 503;
every other error — any other status (400, 401, 403, 404, ...),
validation failures and parse errors — classifies as Fatal.  The
classifier is a function of the error value alone (it has no attempt
parameter), so the result never depends on the attempt count. -/
theorem c3_retry_classification (e : JsError) :
    isRetryableError e = true ↔
      ((∃ m, e = .networkError m) ∨
        (∃ m s, e = .apiError m s ∧ (s = 429 ∨ s = 500 ∨ s = 502 ∨ s = 503))) := by
  cases e with
  | networkError m => simp [isRetryableError]
  | apiError m s =>
    constructor
    · intro h
      refine Or.inr ⟨m, s, rfl, ?_⟩
      simpa [isRetryableError, List.contains, List.elem_iff] using h
    · rintro (⟨m2, h⟩ | ⟨m2, s2, heq, h⟩)
      · simp at h
      · cases heq
        simpa [isRetryableError, List.contains, List.elem_iff] using h
  | validationError m f => simp [isRetryableError]
  | genericError m => simp [isRetryableError]

/-- C4 (counterexample): the claim quantifies over every fixed config,
but for a backoff multiplier below 1 the capped exponential is
decreasing, and the single jitter term cannot bridge a drop larger than
1000 ms: with config `{initialMs 10000, maxMs 100000, multiplier 1/10}`,
a jitter draw of 900 ms at attempt 0 and 0 ms at attempt 1 gives
`nextDelay(1) = 1000 < nextDelay(0) - 1000 = 9900`. -/
theorem c4_counterexample :
    calculateRetryDelay 1 ⟨10000, 100000, 1 / 10⟩ 0 <
      calculateRetryDelay 0 ⟨10000, 100000, 1 / 10⟩ (9 / 10) - 1000 := by
  norm_num [calculateRetryDelay, min_def]

/-- C4 (amended): for every attempt `k` and config with
`initialMs ≥ 0` and `multiplier ≥ 1` (as the repository's
`{1000, 10000, 2}` is), `calculateRetryDelay(k, config)` equals
`min(initialMs * multiplier^k, maxMs)` plus a jitter `rand * 1000` lying
in `[0, 1000)`; the delay never exceeds `maxMs + 1000`; and the delay for
attempt `k+1` is at least the delay for attempt `k` minus 1000, whatever
the two jitter draws. -/
theorem c4_backoff_bounds (k : ℕ) (cfg : RetryDelayConfig) (r r2 : ℚ)
    (hr0 : 0 ≤ r) (hr1 : r < 1) (hr20 : 0 ≤ r2) (_hr21 : r2 < 1)
    (hinit : 0 ≤ cfg.INITIAL_DELAY_MS) (hmul : 1 ≤ cfg.BACKOFF_MULTIPLIER) :
    calculateRetryDelay k cfg r =
        min (cfg.INITIAL_DELAY_MS * cfg.BACKOFF_MULTIPLIER ^ k) cfg.MAX_DELAY_MS +
          r * 1000 ∧
      0 ≤ r * 1000 ∧ r * 1000 < 1000 ∧
      calculateRetryDelay k cfg r ≤ cfg.MAX_DELAY_MS + 1000 ∧
      calculateRetryDelay k cfg r - 1000 ≤ calculateRetryDelay (k + 1) cfg r2 := by
  have hcap : min (cfg.INITIAL_DELAY_MS * cfg.BACKOFF_MULTIPLIER ^ k)
      cfg.MAX_DELAY_MS ≤ cfg.MAX_DELAY_MS :=
    min_le_right _ _
  have hpow : cfg.INITIAL_DELAY_MS * cfg.BACKOFF_MULTIPLIER ^ k ≤
      cfg.INITIAL_DELAY_MS * cfg.BACKOFF_MULTIPLIER ^ (k + 1) :=
    mul_le_mul_of_nonneg_left (pow_le_pow_right₀ hmul (Nat.le_succ k)) hinit
  have hmin : min (cfg.INITIAL_DELAY_MS * cfg.BACKOFF_MULTIPLIER ^ k)
      cfg.MAX_DELAY_MS ≤
        min (cfg.INITIAL_DELAY_MS * cfg.BACKOFF_MULTIPLIER ^ (k + 1))
          cfg.MAX_DELAY_MS :=
    min_le_min hpow le_rfl
  refine ⟨rfl, by positivity, by linarith, ?_, ?_⟩
  · unfold calculateRetryDelay
    dsimp only
    linarith
  · unfold calculateRetryDelay
    dsimp only
    nlinarith

/-- C4 witness: the amended bounds instantiated at attempt 0 with the
repository's retry config and zero jitter draws. -/
theorem c4_backoff_bounds_witness :
    calculateRetryDelay 0 configRetry 0 =
        min (configRetry.INITIAL_DELAY_MS * configRetry.BACKOFF_MULTIPLIER ^ 0)
          configRetry.MAX_DELAY_MS + 0 * 1000 ∧
      (0 : ℚ) ≤ 0 * 1000 ∧ (0 : ℚ) * 1000 < 1000 ∧
      calculateRetryDelay 0 configRetry 0 ≤ configRetry.MAX_DELAY_MS + 1000 ∧
      calculateRetryDelay 0 configRetry 0 - 1000 ≤ calculateRetryDelay 1 configRetry 0 :=
  c4_backoff_bounds 0 configRetry 0 0 le_rfl (by norm_num) le_rfl (by norm_num)
    (by norm_num [configRetry]) (by norm_num [configRetry])

/-- Full characterization of the TypeScript retry loop: either some
attempt succeeds after a (possibly empty) run of retryable failures and
no error is surfaced, or the loop stops at a failure that is fatal or at
the final attempt, surfacing exactly that failure through the status and
`onError` callbacks with a `null` result. -/
theorem tsRetryLoop_spec (hasImage : Bool) (maxAttempts : ℕ) (cfg : RetryDelayConfig)
    (online : ℕ → Bool) (transport : ℕ → FetchOutcome) (rand : ℕ → ℚ) :
    ∀ (fuel attempt : ℕ) (lastErr : Option JsError),
      attempt + fuel = maxAttempts → 1 ≤ fuel →
      (∃ v n, attempt ≤ n ∧ n < maxAttempts ∧
        (tsRetryLoop hasImage maxAttempts cfg online transport rand attempt fuel lastErr).1 = some v ∧
        runAttemptTs (online n) (transport n) = .ok v ∧
        (∀ m, attempt ≤ m → m < n →
          ∃ e, runAttemptTs (online m) (transport m) = .error e ∧ isRetryableError e = true) ∧
        (tsRetryLoop hasImage maxAttempts cfg online transport rand attempt fuel lastErr).2.filter isErrorEvent = [] ∧
        (tsRetryLoop hasImage maxAttempts cfg online transport rand attempt fuel lastErr).2.filter isSuccessEvent = [REvent.successEv v]) ∨
      (∃ e n, attempt ≤ n ∧ n < maxAttempts ∧
        (tsRetryLoop hasImage maxAttempts cfg online transport rand attempt fuel lastErr).1 = none ∧
        runAttemptTs (online n) (transport n) = .error e ∧
        (isRetryableError e = false ∨ n = maxAttempts - 1) ∧
        (∀ m, attempt ≤ m → m < n →
          ∃ e2, runAttemptTs (online m) (transport m) = .error e2 ∧ isRetryableError e2 = true) ∧
        (tsRetryLoop hasImage maxAttempts cfg online transport rand attempt fuel lastErr).2.filter isErrorEvent = [REvent.errorEv e] ∧
        (tsRetryLoop hasImage maxAttempts cfg online transport rand attempt fuel lastErr).2.filter isSuccessEvent = [] ∧
        REvent.statusEv (getErrorMessage e (online n)) "error" ∈
          (tsRetryLoop hasImage maxAttempts cfg online transport rand attempt fuel lastErr).2) := by
  intro fuel
  induction fuel with
  | zero => intro attempt lastErr hsum hge; omega
  | succ fuel ih =>
    intro attempt lastErr hsum hge
    cases hatt : runAttemptTs (online attempt) (transport attempt) with
    | ok v =>
      left
      refine ⟨v, attempt, le_rfl, by omega, ?_, hatt, ?_, ?_, ?_⟩
      · simp [tsRetryLoop, hatt]
      · intro m hm1 hm2; omega
      · simp only [tsRetryLoop, hatt]
        cases honline : online attempt <;> simp [isErrorEvent]
      · simp only [tsRetryLoop, hatt]
        cases honline : online attempt <;> simp [isSuccessEvent]
    | error e =>
      cases hbool : (isRetryableError e && decide (attempt < maxAttempts - 1)) with
      | true =>
        have hsplit := hbool
        rw [Bool.and_eq_true, decide_eq_true_eq] at hsplit
        obtain ⟨hr, hlt⟩ := hsplit
        rcases ih (attempt + 1) (some e) (by omega) (by omega) with
          ⟨v, n, hn1, hn2, hres, hrun, hprev, herr, hsucc⟩ |
          ⟨e2, n, hn1, hn2, hres, hrun, hfatal, hprev, herr, hsucc, hmem⟩
        · left
          refine ⟨v, n, by omega, hn2, ?_, hrun, ?_, ?_, ?_⟩
          · simpa [tsRetryLoop, hatt, hbool] using hres
          · intro m hm1 hm2
            rcases Nat.eq_or_lt_of_le hm1 with heq | hlt2
            · exact ⟨e, heq ▸ hatt, hr⟩
            · exact hprev m (by omega) hm2
          · simp only [tsRetryLoop, hatt, hbool]
            cases honline : online attempt <;> simp [isErrorEvent, herr]
          · simp only [tsRetryLoop, hatt, hbool]
            cases honline : online attempt <;> simp [isSuccessEvent, hsucc]
        · right
          refine ⟨e2, n, by omega, hn2, ?_, hrun, hfatal, ?_, ?_, ?_, ?_⟩
          · simpa [tsRetryLoop, hatt, hbool] using hres
          · intro m hm1 hm2
            rcases Nat.eq_or_lt_of_le hm1 with heq | hlt2
            · exact ⟨e, heq ▸ hatt, hr⟩
            · exact hprev m (by omega) hm2
          · simp only [tsRetryLoop, hatt, hbool]
            cases honline : online attempt <;> simp [isErrorEvent, herr]
          · simp only [tsRetryLoop, hatt, hbool]
            cases honline : online attempt <;> simp [isSuccessEvent, hsucc]
          · simp only [tsRetryLoop, hatt, hbool]
            cases honline : online attempt <;> simp [hmem]
      | false =>
        right
        have hfatal : isRetryableError e = false ∨ attempt = maxAttempts - 1 := by
          rcases Bool.and_eq_false_iff.mp hbool with h | h
          · exact Or.inl (by simpa using h)
          · have := of_decide_eq_false h
            omega
        refine ⟨e, attempt, le_rfl, by omega, ?_, hatt, hfatal, ?_, ?_, ?_, ?_⟩
        · simp [tsRetryLoop, hatt, hbool]
        · intro m hm1 hm2; omega
        · simp only [tsRetryLoop, hatt, hbool]
          cases honline : online attempt <;> simp [isErrorEvent, tsEpilogue]
        · simp only [tsRetryLoop, hatt, hbool]
          cases honline : online attempt <;> simp [isSuccessEvent, tsEpilogue]
        · simp only [tsRetryLoop, hatt, hbool]
          cases honline : online attempt <;> simp [tsEpilogue]

/-- The JS attempt body emits no `onError` event itself, and emits the
`onSuccess` event exactly when it returns a parsed document. -/
theorem runAttemptJs_trace (online : Bool) (outcome : FetchOutcome) :
    (runAttemptJs online outcome).2.filter isErrorEvent = [] ∧
    ((runAttemptJs online outcome).2.filter isSuccessEvent =
      match (runAttemptJs online outcome).1 with
      | .ok v => [REvent.successEv v]
      | .error _ => []) := by
  unfold runAttemptJs
  cases online with
  | false => simp [jsMakeApiRequest, isErrorEvent, isSuccessEvent]
  | true =>
    cases outcome with
    | httpError st m => simp [jsMakeApiRequest, isErrorEvent, isSuccessEvent]
    | success data =>
      cases h : jsParseApiResponse data with
      | ok v => simp [jsMakeApiRequest, h, isErrorEvent, isSuccessEvent]
      | error e => simp [jsMakeApiRequest, h, isErrorEvent, isSuccessEvent]

/-- Full characterization of the JS retry loop, mirroring
`tsRetryLoop_spec`. -/
theorem jsRetryLoop_spec (maxAttempts : ℕ) (cfg : RetryDelayConfig)
    (online : ℕ → Bool) (transport : ℕ → FetchOutcome) (rand : ℕ → ℚ) :
    ∀ (fuel attempt : ℕ) (lastErr : Option JsError),
      attempt + fuel = maxAttempts → 1 ≤ fuel →
      (∃ v n, attempt ≤ n ∧ n < maxAttempts ∧
        (jsRetryLoop maxAttempts cfg online transport rand attempt fuel lastErr).1 = some v ∧
        (runAttemptJs (online n) (transport n)).1 = .ok v ∧
        (∀ m, attempt ≤ m → m < n →
          ∃ e, (runAttemptJs (online m) (transport m)).1 = .error e ∧ isRetryableError e = true) ∧
        (jsRetryLoop maxAttempts cfg online transport rand attempt fuel lastErr).2.filter isErrorEvent = [] ∧
        (jsRetryLoop maxAttempts cfg online transport rand attempt fuel lastErr).2.filter isSuccessEvent = [REvent.successEv v]) ∨
      (∃ e n, attempt ≤ n ∧ n < maxAttempts ∧
        (jsRetryLoop maxAttempts cfg online transport rand attempt fuel lastErr).1 = none ∧
        (runAttemptJs (online n) (transport n)).1 = .error e ∧
        (isRetryableError e = false ∨ n = maxAttempts - 1) ∧
        (∀ m, attempt ≤ m → m < n →
          ∃ e2, (runAttemptJs (online m) (transport m)).1 = .error e2 ∧ isRetryableError e2 = true) ∧
        (jsRetryLoop maxAttempts cfg online transport rand attempt fuel lastErr).2.filter isErrorEvent = [REvent.errorEv e] ∧
        (jsRetryLoop maxAttempts cfg online transport rand attempt fuel lastErr).2.filter isSuccessEvent = [] ∧
        REvent.statusEv (jsGetErrorMessage e (online n)) "error" ∈
          (jsRetryLoop maxAttempts cfg online transport rand attempt fuel lastErr).2) := by
  intro fuel
  induction fuel with
  | zero => intro attempt lastErr hsum hge; omega
  | succ fuel ih =>
    intro attempt lastErr hsum hge
    rcases hatt : runAttemptJs (online attempt) (transport attempt) with ⟨res, evs⟩
    have htr := runAttemptJs_trace (online attempt) (transport attempt)
    rw [hatt] at htr
    cases res with
    | ok v =>
      simp only at htr
      left
      refine ⟨v, attempt, le_rfl, by omega, ?_, by rw [hatt], ?_, ?_, ?_⟩
      · simp [jsRetryLoop, hatt]
      · intro m hm1 hm2; omega
      · simp [jsRetryLoop, hatt, isErrorEvent, htr.1]
      · simp [jsRetryLoop, hatt, isSuccessEvent, htr.2]
    | error e =>
      simp only at htr
      cases hbool : (isRetryableError e && decide (attempt < maxAttempts - 1)) with
      | true =>
        have hsplit := hbool
        rw [Bool.and_eq_true, decide_eq_true_eq] at hsplit
        obtain ⟨hr, hlt⟩ := hsplit
        rcases ih (attempt + 1) (some e) (by omega) (by omega) with
          ⟨v, n, hn1, hn2, hres, hrun, hprev, herr, hsucc⟩ |
          ⟨e2, n, hn1, hn2, hres, hrun, hfatal, hprev, herr, hsucc, hmem⟩
        · left
          refine ⟨v, n, by omega, hn2, ?_, hrun, ?_, ?_, ?_⟩
          · simpa [jsRetryLoop, hatt, hbool] using hres
          · intro m hm1 hm2
            rcases Nat.eq_or_lt_of_le hm1 with heq | hlt2
            · exact ⟨e, by rw [← heq, hatt], hr⟩
            · exact hprev m (by omega) hm2
          · simp [jsRetryLoop, hatt, hbool, isErrorEvent, herr, htr.1]
          · simp [jsRetryLoop, hatt, hbool, isSuccessEvent, hsucc, htr.2]
        · right
          refine ⟨e2, n, by omega, hn2, ?_, hrun, hfatal, ?_, ?_, ?_, ?_⟩
          · simpa [jsRetryLoop, hatt, hbool] using hres
          · intro m hm1 hm2
            rcases Nat.eq_or_lt_of_le hm1 with heq | hlt2
            · exact ⟨e, by rw [← heq, hatt], hr⟩
            · exact hprev m (by omega) hm2
          · simp [jsRetryLoop, hatt, hbool, isErrorEvent, herr, htr.1]
          · simp [jsRetryLoop, hatt, hbool, isSuccessEvent, hsucc, htr.2]
          · simp [jsRetryLoop, hatt, hbool, hmem]
      | false =>
        right
        have hfatal : isRetryableError e = false ∨ attempt = maxAttempts - 1 := by
          rcases Bool.and_eq_false_iff.mp hbool with h | h
          · exact Or.inl (by simpa using h)
          · have := of_decide_eq_false h
            omega
        refine ⟨e, attempt, le_rfl, by omega, ?_, by rw [hatt], hfatal, ?_, ?_, ?_, ?_⟩
        · simp [jsRetryLoop, hatt, hbool]
        · intro m hm1 hm2; omega
        · simp [jsRetryLoop, hatt, hbool, isErrorEvent, jsEpilogue, htr.1]
        · simp [jsRetryLoop, hatt, hbool, isSuccessEvent, jsEpilogue, htr.2]
        · simp [jsRetryLoop, hatt, hbool, jsEpilogue]

/-- C8: with a configured credential and non-blank input, every failure
inside the retry loop is caught locally (each call returns a value; no
attempt lets a failure escape): in both orchestrator variants, either
some attempt succeeds and no `onError` fires, or — exactly when the
loop stops at a failure that is Fatal or at the final attempt (retries
exhausted) — the last recorded failure is surfaced once through the
`onError` callback and the error status, with a `null` result and no
`ClinicalData`, and every earlier attempt failed retryably. -/
theorem c8_failure_surfacing (apiKey inputText : String) (hasImage : Bool)
    (online : ℕ → Bool) (transport : ℕ → FetchOutcome) (rand : ℕ → ℚ)
    (hkey : apiKey ≠ "") (htext : jsTrim inputText ≠ "") :
    ((∃ v, (parseWithAI (some apiKey) inputText hasImage online transport rand).1 = some v ∧
        (parseWithAI (some apiKey) inputText hasImage online transport rand).2.filter isErrorEvent = []) ∨
      (∃ e n, n < configMaxAttempts ∧
        (parseWithAI (some apiKey) inputText hasImage online transport rand).1 = none ∧
        runAttemptTs (online n) (transport n) = .error e ∧
        (isRetryableError e = false ∨ n = configMaxAttempts - 1) ∧
        (∀ m, m < n → ∃ e2, runAttemptTs (online m) (transport m) = .error e2 ∧
          isRetryableError e2 = true) ∧
        (parseWithAI (some apiKey) inputText hasImage online transport rand).2.filter isErrorEvent = [REvent.errorEv e] ∧
        (parseWithAI (some apiKey) inputText hasImage online transport rand).2.filter isSuccessEvent = [] ∧
        REvent.statusEv (getErrorMessage e (online n)) "error" ∈
          (parseWithAI (some apiKey) inputText hasImage online transport rand).2)) ∧
    ((∃ v, (jsParseWithAI (some apiKey) inputText online transport rand).1 = some v ∧
        (jsParseWithAI (some apiKey) inputText online transport rand).2.filter isErrorEvent = []) ∨
      (∃ e n, n < configMaxAttempts ∧
        (jsParseWithAI (some apiKey) inputText online transport rand).1 = none ∧
        (runAttemptJs (online n) (transport n)).1 = .error e ∧
        (isRetryableError e = false ∨ n = configMaxAttempts - 1) ∧
        (∀ m, m < n → ∃ e2, (runAttemptJs (online m) (transport m)).1 = .error e2 ∧
          isRetryableError e2 = true) ∧
        (jsParseWithAI (some apiKey) inputText online transport rand).2.filter isErrorEvent = [REvent.errorEv e] ∧
        (jsParseWithAI (some apiKey) inputText online transport rand).2.filter isSuccessEvent = [] ∧
        REvent.statusEv (jsGetErrorMessage e (online n)) "error" ∈
          (jsParseWithAI (some apiKey) inputText online transport rand).2)) := by
  have hredTs : parseWithAI (some apiKey) inputText hasImage online transport rand =
      tsRetryLoop hasImage configMaxAttempts configRetry online transport rand 0
        configMaxAttempts none := by
    simp [parseWithAI, truthyOptStr, hkey, htext]
  have hne : inputText ≠ "" := by
    intro h
    exact htext (by rw [h]; rfl)
  have hredJs : jsParseWithAI (some apiKey) inputText online transport rand =
      jsRetryLoop configMaxAttempts configRetry online transport rand 0
        configMaxAttempts none := by
    simp [jsParseWithAI, jsValidateInputs, truthyOptStr, hkey, htext, hne]
  constructor
  · rw [hredTs]
    rcases tsRetryLoop_spec hasImage configMaxAttempts configRetry online transport rand
        configMaxAttempts 0 none (by decide) (by decide) with
      ⟨v, n, _, hn2, hres, hrun, hprev, herr, hsucc⟩ |
      ⟨e, n, _, hn2, hres, hrun, hfatal, hprev, herr, hsucc, hmem⟩
    · exact Or.inl ⟨v, hres, herr⟩
    · exact Or.inr ⟨e, n, hn2, hres, hrun, hfatal,
        fun m hm => hprev m (Nat.zero_le m) hm, herr, hsucc, hmem⟩
  · rw [hredJs]
    rcases jsRetryLoop_spec configMaxAttempts configRetry online transport rand
        configMaxAttempts 0 none (by decide) (by decide) with
      ⟨v, n, _, hn2, hres, hrun, hprev, herr, hsucc⟩ |
      ⟨e, n, _, hn2, hres, hrun, hfatal, hprev, herr, hsucc, hmem⟩
    · exact Or.inl ⟨v, hres, herr⟩
    · exact Or.inr ⟨e, n, hn2, hres, hrun, hfatal,
        fun m hm => hprev m (Nat.zero_le m) hm, herr, hsucc, hmem⟩

/-- C8 witness: a transport failing with the fatal status 401 — both
variants return `null` (applying the surfacing theorem at concrete
inputs). -/
theorem c8_failure_surfacing_witness :
    (parseWithAI (some "k") "note" false (fun _ => true)
        (fun _ => .httpError 401 none) (fun _ => 0)).1 = none ∧
    (jsParseWithAI (some "k") "note" (fun _ => true)
        (fun _ => .httpError 401 none) (fun _ => 0)).1 = none := by
  have h := c8_failure_surfacing "k" "note" false (fun _ => true)
    (fun _ => .httpError 401 none) (fun _ => 0) (by decide) (by decide)
  constructor
  · rcases h.1 with ⟨v, hv, _⟩ | ⟨e, n, _, hnone, _⟩
    · rw [show (parseWithAI (some "k") "note" false (fun _ => true)
          (fun _ => .httpError 401 none) (fun _ => 0)).1 = none from by decide] at hv
      simp at hv
    · exact hnone
  · rcases h.2 with ⟨v, hv, _⟩ | ⟨e, n, _, hnone, _⟩
    · rw [show (jsParseWithAI (some "k") "note" (fun _ => true)
          (fun _ => .httpError 401 none) (fun _ => 0)).1 = none from by decide] at hv
      simp at hv
    · exact hnone

/-- C9: when the platform fires the stream-end event while the session
is still Active (`isRecording = true`) and a transport handle exists,
both manager variants invoke the transport's `start()` again, leave the
state unchanged (still Active), and fire no callback at all — the
restart is invisible to the caller. -/
theorem c9_voice_auto_restart (st : VoiceState)
    (hrec : st.hasRecognition = true) (hact : st.isRecording = true) :
    tsOnEndHandler st = (st, [VEvent.transportStartEv]) ∧
    jsOnEndHandler st = (st, [VEvent.transportStartEv]) := by
  simp [tsOnEndHandler, jsOnEndHandler, hact, hrec]

/-- C9 witness: the auto-restart behaviour at the concrete Active state
with a transport handle. -/
theorem c9_voice_auto_restart_witness :
    tsOnEndHandler ⟨true, true⟩ = (⟨true, true⟩, [VEvent.transportStartEv]) ∧
    jsOnEndHandler ⟨true, true⟩ = (⟨true, true⟩, [VEvent.transportStartEv]) :=
  c9_voice_auto_restart ⟨true, true⟩ rfl rfl

/-- C10 (counterexample): in the JS manager variant, `stop()` on a
session with no transport handle fires no `onEnd` at all (and no
platform end event can follow), contradicting the claim that `onEnd`
fires exactly once — "immediately if no transport exists". -/
theorem c10_counterexample :
    ((jsStop ⟨false, true⟩).2.count VEvent.onEndEv = 0) ∧
    (jsStop ⟨false, true⟩).1.isRecording = false := by
  decide

/-- C10 (amended): in both variants `stop()` clears the Active state
first (the state write is the first recorded action, before any
transport-halt request), so the following platform end event triggers no
restart; across `stop()` plus the following end event `onEnd` fires
exactly once — in the TypeScript manager already during `stop()`
(whether or not a transport exists), in the JS manager only in the end
handler, so the JS manager fires no `onEnd` when no transport exists and
hence no end event ever arrives. -/
theorem c10_stop_semantics (st : VoiceState) :
    (tsStop st).1 = ⟨st.hasRecognition, false⟩ ∧
    (jsStop st).1 = ⟨st.hasRecognition, false⟩ ∧
    (tsStop st).2.head? = some (VEvent.setRecordingEv false) ∧
    (jsStop st).2.head? = some (VEvent.setRecordingEv false) ∧
    tsOnEndHandler (tsStop st).1 = ((tsStop st).1, []) ∧
    jsOnEndHandler (jsStop st).1 = ((jsStop st).1, [VEvent.onEndEv]) ∧
    ((tsStop st).2 ++ (tsOnEndHandler (tsStop st).1).2).count VEvent.onEndEv = 1 ∧
    ((jsStop st).2 ++ (jsOnEndHandler (jsStop st).1).2).count VEvent.onEndEv = 1 ∧
    ((tsStop st).2 ++ (tsOnEndHandler (tsStop st).1).2).count VEvent.transportStartEv = 0 ∧
    ((jsStop st).2 ++ (jsOnEndHandler (jsStop st).1).2).count VEvent.transportStartEv = 0 ∧
    (tsStop st).2.count VEvent.onEndEv = 1 ∧
    (jsStop st).2.count VEvent.onEndEv = 0 := by
  obtain ⟨hr, ir⟩ := st
  cases hr <;> cases ir <;> decide

end Admissions
